import Mathlib

/-!
Verification of the sockr real-time messaging SDK (client session state
machine, server connection registry, and protocol plugins) against its
specification.  The definitions below are shallow embeddings of the
TypeScript sources:

* `Sockr.Client.ConnectionManager` — packages/client/src/core/ConnectionManager.ts
* `Sockr.Client` socket orchestration — core/SocketClient.ts
* `Sockr.Server.Connection` — packages/server/src/core/Connection.ts
* `Sockr.Server.ConnectionManager` — server core/ConnectionManager.ts
* `Sockr.Server` plugin handlers — plugins/MessagePlugin.ts, AuthPlugin.ts,
  PresencePlugin.ts

JavaScript `Map`/record objects are embedded as association lists with
`set`/`erase`/`lookup` mirroring `Map.set`/`Map.delete`/`Map.get`.
-/

namespace Sockr

/-- Association-list embedding of a string-keyed JS `Map`. -/
def SMap (β : Type) : Type := List (String × β)

namespace SMap

def empty {β : Type} : SMap β := []

/-- `Map.get`. -/
def lookup {β : Type} (k : String) : SMap β → Option β
  | [] => none
  | (a, b) :: t => if a = k then some b else lookup k t

/-- `Map.set`: update in place if the key is present, else append. -/
def set {β : Type} (k : String) (v : β) : SMap β → SMap β
  | [] => [(k, v)]
  | (a, b) :: t => if a = k then (k, v) :: t else (a, b) :: set k v t

/-- `Map.delete`. -/
def erase {β : Type} (k : String) : SMap β → SMap β
  | [] => []
  | (a, b) :: t => if a = k then erase k t else (a, b) :: erase k t

/-- `Map.has`. -/
def hasKey {β : Type} (k : String) (m : SMap β) : Bool :=
  (m.lookup k).isSome

theorem lookup_set {β : Type} (m : SMap β) (k k' : String) (v : β) :
    (m.set k v).lookup k' = if k = k' then some v else m.lookup k' := by
  induction m with
  | nil => simp [set, lookup]
  | cons hd t ih =>
    obtain ⟨a, b⟩ := hd
    by_cases hak : a = k <;> by_cases hk : k = k'
    · subst hak; subst hk; simp [set, lookup]
    · subst hak; simp [set, lookup, hk]
    · subst hk; simp [set, lookup, hak, ih]
    · simp [set, lookup, hak, hk, ih]

theorem lookup_erase {β : Type} (m : SMap β) (k k' : String) :
    (m.erase k).lookup k' = if k = k' then none else m.lookup k' := by
  induction m with
  | nil => simp [erase, lookup]
  | cons hd t ih =>
    obtain ⟨a, b⟩ := hd
    by_cases hak : a = k <;> by_cases hk : k = k'
    · subst hak; subst hk; simp [erase, lookup, ih]
    · subst hak; simp [erase, lookup, hk, ih]
    · subst hk; simp [erase, lookup, hak, ih]
    · simp [erase, lookup, hak, hk, ih]

instance {β : Type} [DecidableEq β] : DecidableEq (SMap β) :=
  fun x y => List.hasDecEq x y

end SMap

/-- Opaque stand-in for the `Record<string, any>` metadata blobs. -/
abbrev Metadata := List (String × String)

/-- `User` from sockr-shared: `{id, socketId, connectedAt, metadata?}`. -/
structure User where
  id : String
  socketId : String
  connectedAt : Nat
  metadata : Option Metadata := none
  deriving Repr, DecidableEq

namespace Server

/-- Server-side `Connection` wrapper (core/Connection.ts).  The wrapped
socket is represented by its id. -/
structure Connection where
  socketId : String
  user : Option User := none
  isAuthenticated : Bool := false
  deriving Repr, DecidableEq

namespace Connection

/-- `Connection.authenticate(user)`: stores the user and raises the flag. -/
def authenticate (c : Connection) (u : User) : Connection :=
  { c with user := some u, isAuthenticated := true }

/-- `Connection.getUserId()`: `this.user?.id || null`.  Note that the
JavaScript `||` coerces an empty-string id to `null`. -/
def getUserId (c : Connection) : Option String :=
  match c.user with
  | none => none
  | some u => if u.id = "" then none else some u.id

/-- `Connection.getSocketId()`. -/
def getSocketId (c : Connection) : String := c.socketId

/-- `Connection.isAuth()`. -/
def isAuth (c : Connection) : Bool := c.isAuthenticated

end Connection

/-- Server-side `ConnectionManager`: the dual-indexed registry
(`connections : sessionId → Connection`, `userSockets : userId → sessionId`). -/
structure ConnectionManager where
  connections : SMap Connection
  userSockets : SMap String

namespace ConnectionManager

def empty : ConnectionManager := ⟨SMap.empty, SMap.empty⟩

/-- `addConnection(connection)`. -/
def addConnection (m : ConnectionManager) (c : Connection) : ConnectionManager :=
  { m with connections := m.connections.set c.getSocketId c }

/-- `removeConnection(socketId)`: deletes the user mapping keyed on the
removed connection's own `getUserId()`, then the connection itself. -/
def removeConnection (m : ConnectionManager) (socketId : String) : ConnectionManager :=
  match m.connections.lookup socketId with
  | none => m
  | some c =>
    match c.getUserId with
    | some userId =>
      { connections := m.connections.erase socketId
        userSockets := m.userSockets.erase userId }
    | none =>
      { m with connections := m.connections.erase socketId }

/-- `getConnection(socketId)`. -/
def getConnection (m : ConnectionManager) (socketId : String) : Option Connection :=
  m.connections.lookup socketId

/-- `getConnectionByUserId(userId)`. -/
def getConnectionByUserId (m : ConnectionManager) (userId : String) : Option Connection :=
  match m.userSockets.lookup userId with
  | none => none
  | some socketId => m.connections.lookup socketId

/-- `authenticateConnection(socketId, user)`. -/
def authenticateConnection (m : ConnectionManager) (socketId : String) (u : User) :
    ConnectionManager :=
  match m.connections.lookup socketId with
  | none => m
  | some c =>
    { connections := m.connections.set socketId (c.authenticate u)
      userSockets := m.userSockets.set u.id socketId }

/-- `isUserOnline(userId)`. -/
def isUserOnline (m : ConnectionManager) (userId : String) : Bool :=
  m.userSockets.hasKey userId

/-- `getUsersOnlineStatus(userIds)`: builds the `statuses` record by
assigning `statuses[userId] = isUserOnline(userId)` for each requested id. -/
def getUsersOnlineStatus (m : ConnectionManager) (userIds : List String) : SMap Bool :=
  userIds.foldl (fun acc userId => acc.set userId (m.isUserOnline userId)) SMap.empty

/-- `getTotalConnections()`. -/
def getTotalConnections (m : ConnectionManager) : Nat :=
  m.connections.length

end ConnectionManager

/-- One outbound `socket.emit` performed by a server-side handler.  The
first string of every constructor is the socket id the event targets. -/
inductive ServerEmit where
  | messageError (target : String) (messageId : Option String) (error : String)
  | receiveMessage (target : String) (fromId content : String) (timestamp : Nat)
      (messageId : String) (metadata : Option Metadata)
  | messageDelivered (target : String) (messageId : String)
  | typingStart (target : String) (fromId : String)
  | typingStop (target : String) (fromId : String)
  | authenticated (target : String) (userId socketId : String)
  | authError (target : String) (message : String)
  | onlineStatus (target : String) (statuses : SMap Bool)
  deriving DecidableEq

/-- `send_message` payload: `{to, content, metadata?}`. -/
structure SendMessagePayload where
  toId : String
  content : String
  metadata : Option Metadata := none
  deriving Repr, DecidableEq

/-- The `send_message` handler of MessagePlugin.  `socketId` identifies the
requesting socket, `messageId` is the freshly generated `randomUUID()` and
`now` the `Date.now()` at time of processing.  Returns the emitted events in
order. -/
def handleSendMessage (m : ConnectionManager) (socketId : String)
    (payload : SendMessagePayload) (messageId : String) (now : Nat) :
    List ServerEmit :=
  match m.getConnection socketId with
  | none => [.messageError socketId none "Not authenticated"]
  | some connection =>
    if !connection.isAuth then
      [.messageError socketId none "Not authenticated"]
    else
      match connection.getUserId with
      | none => [.messageError socketId none "Invalid user"]
      | some fromUserId =>
        match m.getConnectionByUserId payload.toId with
        | none => [.messageError socketId (some messageId) "Recipient is offline"]
        | some recipientConnection =>
          [.receiveMessage recipientConnection.getSocketId fromUserId
             payload.content now messageId payload.metadata,
           .messageDelivered socketId messageId]

/-- The `typing_start` handler of MessagePlugin. -/
def handleTypingStart (m : ConnectionManager) (socketId : String) (toId : String) :
    List ServerEmit :=
  match m.getConnection socketId with
  | none => []
  | some connection =>
    if !connection.isAuth then []
    else
      match connection.getUserId with
      | none => []
      | some fromUserId =>
        match m.getConnectionByUserId toId with
        | none => []
        | some recipientConnection =>
          [.typingStart recipientConnection.getSocketId fromUserId]

/-- The `typing_stop` handler of MessagePlugin. -/
def handleTypingStop (m : ConnectionManager) (socketId : String) (toId : String) :
    List ServerEmit :=
  match m.getConnection socketId with
  | none => []
  | some connection =>
    if !connection.isAuth then []
    else
      match connection.getUserId with
      | none => []
      | some fromUserId =>
        match m.getConnectionByUserId toId with
        | none => []
        | some recipientConnection =>
          [.typingStop recipientConnection.getSocketId fromUserId]

/-- Outcome of `await authHandler(token)` in AuthPlugin: a user, `null`, or
a thrown error. -/
inductive AuthResult where
  | ok (u : User)
  | nullUser
  | thrown
  deriving Repr

/-- The `authenticate` handler of AuthPlugin.  Returns the registry after
the handler, the emitted events, and whether `socket.disconnect()` was
called. -/
def handleAuthenticate (m : ConnectionManager) (socketId : String)
    (result : AuthResult) (now : Nat) :
    ConnectionManager × List ServerEmit × Bool :=
  match result with
  | .nullUser =>
    (m, [.authError socketId "Invalid authentication token"], true)
  | .thrown =>
    (m, [.authError socketId "Authentication failed"], true)
  | .ok u =>
    let stamped : User := { u with socketId := socketId, connectedAt := now }
    (m.authenticateConnection socketId stamped,
     [.authenticated socketId stamped.id socketId], false)

/-! ### Registry operation sequences

The registry is mutated only through `addConnection` (with a freshly created
`Connection`, as the server orchestrator does on every new transport
connection), `authenticateConnection` and `removeConnection`. -/

/-- A single registry operation as issued by the server orchestrator and
the auth plugin. -/
inductive RegOp where
  | add (socketId : String)
  | auth (socketId : String) (u : User)
  | remove (socketId : String)
  deriving Repr

/-- Apply one registry operation.  `add` installs a freshly constructed
`Connection` (user `null`, unauthenticated), as `setupConnectionHandler`
does. -/
def applyOp (m : ConnectionManager) : RegOp → ConnectionManager
  | .add socketId => m.addConnection { socketId := socketId }
  | .auth socketId u => m.authenticateConnection socketId u
  | .remove socketId => m.removeConnection socketId

def applyOps (m : ConnectionManager) (ops : List RegOp) : ConnectionManager :=
  ops.foldl applyOp m

/-- Invariant R1: every `userId → sid` entry of the user map points at a
registered connection whose stored user has exactly that id. -/
def R1 (m : ConnectionManager) : Prop :=
  ∀ userId socketId, m.userSockets.lookup userId = some socketId →
    ∃ c u, m.connections.lookup socketId = some c ∧ c.user = some u ∧ u.id = userId

/-- Auxiliary invariant: no registered connection stores a user whose id is
the empty string. -/
def NoEmptyId (m : ConnectionManager) : Prop :=
  ∀ socketId c u, m.connections.lookup socketId = some c → c.user = some u →
    u.id ≠ ""

/-- Auxiliary invariant: an authenticated connection always stores a user. -/
def AuthImpliesUser (m : ConnectionManager) : Prop :=
  ∀ socketId c, m.connections.lookup socketId = some c →
    c.isAuthenticated = true → ∃ u, c.user = some u

/-- Side conditions under which an operation is benign: `add` only with a
session id not already registered (transport session ids are fresh), and
`auth` only with a non-empty user id and never re-authenticating an
already-authenticated session under a different user id. -/
def opOK (m : ConnectionManager) : RegOp → Prop
  | .add socketId => m.connections.lookup socketId = none
  | .auth socketId u =>
    u.id ≠ "" ∧
      (match m.connections.lookup socketId with
       | none => True
       | some c =>
         match c.user with
         | none => True
         | some u' => u'.id = u.id)
  | .remove _ => True

/-- Every operation of the sequence satisfies `opOK` at the state it is
applied in. -/
def OkSeq : ConnectionManager → List RegOp → Prop
  | _, [] => True
  | m, op :: rest => opOK m op ∧ OkSeq (applyOp m op) rest

end Server

namespace Client

/-- `ConnectionState` enum of the client ConnectionManager. -/
inductive ConnectionState where
  | disconnected
  | connecting
  | connected
  | authenticated
  | error
  | reconnecting
  deriving Repr, DecidableEq

/-- Client-side `ConnectionManager`: current state and the reconnect
attempt counter with its bound.  The listener set is modelled separately by
the notification log of `runSetStates`. -/
structure ConnectionManager where
  state : ConnectionState := .disconnected
  reconnectAttempts : Nat := 0
  maxReconnectAttempts : Nat := 5
  deriving Repr, DecidableEq

namespace ConnectionManager

/-- `getState()`. -/
def getState (c : ConnectionManager) : ConnectionState := c.state

/-- `setState(state)`: a strict no-op when the new state equals the current
one, otherwise updates and notifies. -/
def setState (c : ConnectionManager) (s : ConnectionState) : ConnectionManager :=
  if c.state = s then c else { c with state := s }

/-- `isConnected()`. -/
def isConnected (c : ConnectionManager) : Bool :=
  c.state = ConnectionState.connected || c.state = ConnectionState.authenticated

/-- `isAuthenticated()`. -/
def isAuthenticated (c : ConnectionManager) : Bool :=
  c.state = ConnectionState.authenticated

/-- `incrementReconnectAttempts()`: bumps the counter and returns it. -/
def incrementReconnectAttempts (c : ConnectionManager) : ConnectionManager × Nat :=
  ({ c with reconnectAttempts := c.reconnectAttempts + 1 }, c.reconnectAttempts + 1)

/-- `resetReconnectAttempts()`. -/
def resetReconnectAttempts (c : ConnectionManager) : ConnectionManager :=
  { c with reconnectAttempts := 0 }

/-- `canReconnect()`. -/
def canReconnect (c : ConnectionManager) : Bool :=
  c.reconnectAttempts < c.maxReconnectAttempts

/-- Run a sequence of `setState` calls, recording the value passed to a
fixed registered state-change listener at each notification.
`notifyListeners` passes the just-updated `this.state`. -/
def runSetStates (c : ConnectionManager) :
    List ConnectionState → ConnectionManager × List ConnectionState
  | [] => (c, [])
  | s :: rest =>
    if c.state = s then runSetStates c rest
    else
      let step := runSetStates { c with state := s } rest
      (step.1, s :: step.2)

end ConnectionManager

/-- The slice of `SocketClient` state driving reconnection: its
ConnectionManager, the `reconnection`/`reconnectionDelay` configuration, and
the pending `reconnectTimer` (recorded as the delay it was armed with). -/
structure SocketClientState where
  cm : ConnectionManager
  reconnection : Bool := true
  reconnectionDelay : Nat := 1000
  reconnectTimer : Option Nat := none
  deriving Repr, DecidableEq

/-- `SocketClient.shouldReconnect(reason)`. -/
def shouldReconnect (s : SocketClientState) (reason : String) : Bool :=
  reason ≠ "io client disconnect" && s.cm.canReconnect

/-- `SocketClient.scheduleReconnect()`: cancels any pending timer,
increments the attempt counter to `attempt`, arms a timer with delay
`reconnectionDelay * attempt` and moves the state machine to Reconnecting. -/
def scheduleReconnect (s : SocketClientState) : SocketClientState :=
  let step := s.cm.incrementReconnectAttempts
  let delay := s.reconnectionDelay * step.2
  { s with
    cm := step.1.setState ConnectionState.reconnecting
    reconnectTimer := some delay }

/-- Transport lifecycle events as delivered by the socket.io client. -/
inductive TransportEvent where
  | connect
  | disconnect (reason : String)
  | connectError
  deriving Repr, DecidableEq

/-- One step of `setupSocketListeners`: the `connect`, `disconnect` and
`connect_error` listeners.  The boolean records whether this event caused
`scheduleReconnect` to arm a timer. -/
def handleEvent (s : SocketClientState) : TransportEvent → SocketClientState × Bool
  | .connect =>
    ({ s with cm := (s.cm.setState ConnectionState.connected).resetReconnectAttempts },
     false)
  | .disconnect reason =>
    let s1 := { s with cm := s.cm.setState ConnectionState.disconnected }
    if s1.reconnection && shouldReconnect s1 reason then
      (scheduleReconnect s1, true)
    else
      (s1, false)
  | .connectError =>
    let s1 := { s with cm := s.cm.setState ConnectionState.error }
    if s1.reconnection then
      (scheduleReconnect s1, true)
    else
      (s1, false)

/-- Run a sequence of transport events, collecting for each one whether a
reconnect timer was scheduled while handling it. -/
def runEvents (s : SocketClientState) :
    List TransportEvent → SocketClientState × List Bool
  | [] => (s, [])
  | e :: rest =>
    let step := handleEvent s e
    let tail := runEvents step.1 rest
    (tail.1, step.2 :: tail.2)

end Client

/-! ### Theorems -/

open Server Client

/-- C8: every reconnect scheduling step arms the timer with delay
`reconnectionDelay × n` where `n` is the attempt number just reached by
incrementing the counter — linear backoff, so with the default base of
1000ms the first three attempts are delayed 1000, 2000 and 3000 ms. -/
theorem scheduleReconnect_linear_backoff :
    (∀ s : SocketClientState,
      (scheduleReconnect s).reconnectTimer =
        some (s.reconnectionDelay * (s.cm.reconnectAttempts + 1)) ∧
      (scheduleReconnect s).cm.reconnectAttempts = s.cm.reconnectAttempts + 1) ∧
    ((scheduleReconnect { cm := {} }).reconnectTimer = some 1000 ∧
      (scheduleReconnect (scheduleReconnect { cm := {} })).reconnectTimer = some 2000 ∧
      (scheduleReconnect (scheduleReconnect
        (scheduleReconnect { cm := {} }))).reconnectTimer = some 3000) := by
  constructor
  · intro s
    constructor
    · rfl
    · simp [scheduleReconnect, Client.ConnectionManager.incrementReconnectAttempts,
        Client.ConnectionManager.setState]
      split <;> rfl
  · refine ⟨rfl, rfl, rfl⟩

theorem lookup_foldl_status (m : Server.ConnectionManager) (userIds : List String)
    (acc : SMap Bool) (u : String) :
    SMap.lookup u
        (userIds.foldl (fun acc userId => acc.set userId (m.isUserOnline userId)) acc) =
      if u ∈ userIds then some (m.isUserOnline u) else SMap.lookup u acc := by
  induction userIds generalizing acc with
  | nil => simp
  | cons a t ih =>
    simp only [List.foldl_cons]
    rw [ih]
    by_cases hut : u ∈ t
    · simp [hut]
    · by_cases hau : a = u
      · subst hau
        simp [hut, SMap.lookup_set]
      · simp [hut, SMap.lookup_set, hau, Ne.symm hau]

/-- C9: `getUsersOnlineStatus` returns a map whose keys are exactly the
requested ids, each mapped to whether a `userId → socketId` entry exists in
the registry, and the resulting map is the same function for any
permutation of the input list. -/
theorem getUsersOnlineStatus_spec :
    (∀ (m : Server.ConnectionManager) (userIds : List String) (u : String),
      SMap.lookup u (m.getUsersOnlineStatus userIds) =
        if u ∈ userIds then some (m.userSockets.lookup u).isSome else none) ∧
    (∀ (m : Server.ConnectionManager) (userIds userIds' : List String),
      userIds.Perm userIds' → ∀ u : String,
        SMap.lookup u (m.getUsersOnlineStatus userIds) =
          SMap.lookup u (m.getUsersOnlineStatus userIds')) := by
  have key : ∀ (m : Server.ConnectionManager) (userIds : List String) (u : String),
      SMap.lookup u (m.getUsersOnlineStatus userIds) =
        if u ∈ userIds then some (m.userSockets.lookup u).isSome else none := by
    intro m userIds u
    unfold Server.ConnectionManager.getUsersOnlineStatus
    rw [lookup_foldl_status]
    simp [Server.ConnectionManager.isUserOnline, SMap.hasKey, SMap.empty, SMap.lookup]
  refine ⟨key, ?_⟩
  intro m userIds userIds' hperm u
  rw [key, key, if_congr (Iff.intro (hperm.mem_iff.mp) (hperm.mem_iff.mpr)) rfl rfl]

/-- Witness for C9 at a registry where only "a" is online. -/
theorem getUsersOnlineStatus_spec_witness :
    List.Perm ["a", "b"] ["b", "a"] ∧
    SMap.lookup "a"
        (Server.ConnectionManager.getUsersOnlineStatus ⟨[], [("a", "s1")]⟩ ["a", "b"]) =
      some true ∧
    SMap.lookup "b"
        (Server.ConnectionManager.getUsersOnlineStatus ⟨[], [("a", "s1")]⟩ ["a", "b"]) =
      some false ∧
    SMap.lookup "b"
        (Server.ConnectionManager.getUsersOnlineStatus ⟨[], [("a", "s1")]⟩ ["b", "a"]) =
      SMap.lookup "b"
        (Server.ConnectionManager.getUsersOnlineStatus ⟨[], [("a", "s1")]⟩ ["a", "b"]) := by
  refine ⟨by decide, ?_, ?_,
    getUsersOnlineStatus_spec.2 ⟨[], [("a", "s1")]⟩ ["b", "a"] ["a", "b"] (by decide) "b"⟩
  · rw [getUsersOnlineStatus_spec.1 ⟨[], [("a", "s1")]⟩ ["a", "b"] "a"]
    decide
  · rw [getUsersOnlineStatus_spec.1 ⟨[], [("a", "s1")]⟩ ["a", "b"] "b"]
    decide

/-- C7: for every sequence of `setState` calls, the fixed registered
listener is notified exactly at the calls whose argument differs from the
state current at that call (the notification log is the destuttering of the
state trace), and the final state is the argument of the last call, or the
starting state for the empty sequence. -/
theorem runSetStates_spec :
    ∀ (calls : List ConnectionState) (c : Client.ConnectionManager),
      (Client.ConnectionManager.runSetStates c calls).1.state =
        calls.getLastD c.state ∧
      c.state :: (Client.ConnectionManager.runSetStates c calls).2 =
        List.destutter' (· ≠ ·) c.state calls := by
  intro calls
  induction calls with
  | nil =>
    intro c
    simp [Client.ConnectionManager.runSetStates]
  | cons s rest ih =>
    intro c
    rw [Client.ConnectionManager.runSetStates]
    by_cases h : c.state = s
    · rw [if_pos h]
      refine ⟨?_, ?_⟩
      · rw [(ih c).1, List.getLastD_cons, h]
      · rw [(ih c).2, List.destutter'_cons, if_neg (by simp [h])]
    · rw [if_neg h]
      refine ⟨?_, ?_⟩
      · have := (ih { c with state := s }).1
        simp only at this
        rw [this, List.getLastD_cons]
      · have := (ih { c with state := s }).2
        simp only at this
        rw [List.destutter'_cons, if_pos h]
        simp only [List.cons.injEq, true_and]
        exact this

/-- C5: after `authenticateConnection(A, u)`, `authenticateConnection(B, u)`
(last-authentication-wins displacement) and `removeConnection(A)` with
`A ≠ B`, the user-map entry for `u.id` is gone — `isUserOnline` is false and
`getConnectionByUserId` is undefined — although session B itself is still
registered and authenticated as `u`: removal keys the user-map deletion on
the removed session's own user id. -/
theorem removeConnection_after_displacement :
    ∀ (m : Server.ConnectionManager) (a b : String) (u : User)
      (ca cb : Server.Connection),
      a ≠ b → u.id ≠ "" →
      m.connections.lookup a = some ca →
      m.connections.lookup b = some cb →
      (((m.authenticateConnection a u).authenticateConnection b u).removeConnection
          a).userSockets.lookup u.id = none ∧
      (((m.authenticateConnection a u).authenticateConnection b u).removeConnection
          a).isUserOnline u.id = false ∧
      (((m.authenticateConnection a u).authenticateConnection b u).removeConnection
          a).getConnectionByUserId u.id = none ∧
      (((m.authenticateConnection a u).authenticateConnection b u).removeConnection
          a).getConnection b = some (cb.authenticate u) ∧
      (cb.authenticate u).isAuth = true := by
  intro m a b u ca cb hab hu ha hb
  have e1 : m.authenticateConnection a u =
      ⟨m.connections.set a (ca.authenticate u), m.userSockets.set u.id a⟩ := by
    rw [Server.ConnectionManager.authenticateConnection, ha]
  have e2 : (m.authenticateConnection a u).authenticateConnection b u =
      ⟨(m.connections.set a (ca.authenticate u)).set b (cb.authenticate u),
        (m.userSockets.set u.id a).set u.id b⟩ := by
    rw [e1, Server.ConnectionManager.authenticateConnection]
    simp only [SMap.lookup_set, if_neg hab, hb]
  have e3 : ((m.authenticateConnection a u).authenticateConnection b u).removeConnection a =
      ⟨((m.connections.set a (ca.authenticate u)).set b (cb.authenticate u)).erase a,
        ((m.userSockets.set u.id a).set u.id b).erase u.id⟩ := by
    rw [e2, Server.ConnectionManager.removeConnection]
    rw [show SMap.lookup a
          (SMap.set b (cb.authenticate u) (SMap.set a (ca.authenticate u) m.connections)) =
        some (ca.authenticate u) from by
      rw [SMap.lookup_set, if_neg (Ne.symm hab), SMap.lookup_set, if_pos rfl]]
    simp [Server.Connection.getUserId, Server.Connection.authenticate, hu]
  rw [e3]
  refine ⟨?_, ?_, ?_, ?_, rfl⟩
  · simp [SMap.lookup_erase]
  · simp [Server.ConnectionManager.isUserOnline, SMap.hasKey, SMap.lookup_erase]
  · simp [Server.ConnectionManager.getConnectionByUserId, SMap.lookup_erase]
  · simp [Server.ConnectionManager.getConnection, SMap.lookup_erase, SMap.lookup_set,
      Ne.symm hab, hab]

/-- Witness for C5: two concrete sessions "A" and "B" both authenticated as
"alice", then "A" removed. -/
theorem removeConnection_after_displacement_witness :
    ("A" : String) ≠ "B" ∧ ("alice" : String) ≠ "" ∧
    SMap.lookup "A" (Server.ConnectionManager.connections
      ⟨[("A", { socketId := "A" }), ("B", { socketId := "B" })], []⟩) =
      some { socketId := "A" } ∧
    SMap.lookup "B" (Server.ConnectionManager.connections
      ⟨[("A", { socketId := "A" }), ("B", { socketId := "B" })], []⟩) =
      some { socketId := "B" } ∧
    ((((⟨[("A", { socketId := "A" }), ("B", { socketId := "B" })], []⟩ :
          Server.ConnectionManager).authenticateConnection "A"
            ⟨"alice", "", 0, none⟩).authenticateConnection "B"
            ⟨"alice", "", 0, none⟩).removeConnection "A").isUserOnline "alice" =
      false := by
  refine ⟨by decide, by decide, by decide, by decide, ?_⟩
  exact (removeConnection_after_displacement
    ⟨[("A", { socketId := "A" }), ("B", { socketId := "B" })], []⟩ "A" "B"
    ⟨"alice", "", 0, none⟩ { socketId := "A" } { socketId := "B" }
    (by decide) (by decide) (by decide) (by decide)).2.1

/-- C3: a send-message request from a registered, authenticated sender whose
user id resolves and whose recipient resolves in the registry emits exactly
one receive-message event to the recipient's socket carrying the sender's
user id, the content, the processing timestamp, the freshly generated
message id and the metadata, followed by exactly one message-delivered event
to the sender carrying the same message id — and nothing else. -/
theorem handleSendMessage_success :
    ∀ (m : Server.ConnectionManager) (socketId : String)
      (payload : SendMessagePayload) (messageId : String) (now : Nat)
      (c rc : Server.Connection) (uid : String),
      m.getConnection socketId = some c →
      c.isAuth = true →
      c.getUserId = some uid →
      m.getConnectionByUserId payload.toId = some rc →
      handleSendMessage m socketId payload messageId now =
        [.receiveMessage rc.getSocketId uid payload.content now messageId
           payload.metadata,
         .messageDelivered socketId messageId] := by
  intro m socketId payload messageId now c rc uid hc hauth huid hrc
  rw [handleSendMessage, hc]
  simp only [hauth, Bool.not_true, Bool.false_eq_true, if_false, huid, hrc]

/-- Witness for C3: "A" authenticated as "alice" sends "hi" to "bob" who is
online at socket "B". -/
theorem handleSendMessage_success_witness :
    (Server.ConnectionManager.getConnection
        ⟨[("A", ⟨"A", some ⟨"alice", "A", 0, none⟩, true⟩),
          ("B", ⟨"B", some ⟨"bob", "B", 0, none⟩, true⟩)],
         [("alice", "A"), ("bob", "B")]⟩ "A" =
      some ⟨"A", some ⟨"alice", "A", 0, none⟩, true⟩) ∧
    (Server.Connection.isAuth ⟨"A", some ⟨"alice", "A", 0, none⟩, true⟩ = true) ∧
    (Server.Connection.getUserId ⟨"A", some ⟨"alice", "A", 0, none⟩, true⟩ =
      some "alice") ∧
    (Server.ConnectionManager.getConnectionByUserId
        ⟨[("A", ⟨"A", some ⟨"alice", "A", 0, none⟩, true⟩),
          ("B", ⟨"B", some ⟨"bob", "B", 0, none⟩, true⟩)],
         [("alice", "A"), ("bob", "B")]⟩ "bob" =
      some ⟨"B", some ⟨"bob", "B", 0, none⟩, true⟩) ∧
    handleSendMessage
        ⟨[("A", ⟨"A", some ⟨"alice", "A", 0, none⟩, true⟩),
          ("B", ⟨"B", some ⟨"bob", "B", 0, none⟩, true⟩)],
         [("alice", "A"), ("bob", "B")]⟩ "A" ⟨"bob", "hi", none⟩ "m1" 42 =
      [.receiveMessage "B" "alice" "hi" 42 "m1" none,
       .messageDelivered "A" "m1"] := by
  refine ⟨by decide, rfl, by decide, by decide, ?_⟩
  exact handleSendMessage_success _ "A" ⟨"bob", "hi", none⟩ "m1" 42
    ⟨"A", some ⟨"alice", "A", 0, none⟩, true⟩
    ⟨"B", some ⟨"bob", "B", 0, none⟩, true⟩ "alice"
    (by decide) rfl (by decide) (by decide)

/-- C4: the typing handlers are completely silent — emitting no event to any
session — when the sender is unregistered or unauthenticated or the
recipient does not resolve in the registry; when the sender is authenticated
with a resolving user id and the recipient is online, exactly the one
corresponding typing event carrying the sender's user id is emitted to the
recipient alone. -/
theorem typing_handlers_spec :
    (∀ (m : Server.ConnectionManager) (socketId toId : String),
      (∀ c, m.getConnection socketId = some c → c.isAuth = false) →
      handleTypingStart m socketId toId = [] ∧
      handleTypingStop m socketId toId = []) ∧
    (∀ (m : Server.ConnectionManager) (socketId toId : String),
      m.getConnectionByUserId toId = none →
      handleTypingStart m socketId toId = [] ∧
      handleTypingStop m socketId toId = []) ∧
    (∀ (m : Server.ConnectionManager) (socketId toId : String)
      (c rc : Server.Connection) (uid : String),
      m.getConnection socketId = some c → c.isAuth = true →
      c.getUserId = some uid →
      m.getConnectionByUserId toId = some rc →
      handleTypingStart m socketId toId = [.typingStart rc.getSocketId uid] ∧
      handleTypingStop m socketId toId = [.typingStop rc.getSocketId uid]) := by
  refine ⟨?_, ?_, ?_⟩
  · intro m socketId toId hnoauth
    cases hc : m.getConnection socketId with
    | none => rw [handleTypingStart, hc, handleTypingStop, hc]; exact ⟨rfl, rfl⟩
    | some c =>
      have := hnoauth c hc
      rw [handleTypingStart, hc, handleTypingStop, hc]
      simp [this]
  · intro m socketId toId hrec
    cases hc : m.getConnection socketId with
    | none => rw [handleTypingStart, hc, handleTypingStop, hc]; exact ⟨rfl, rfl⟩
    | some c =>
      rw [handleTypingStart, hc, handleTypingStop, hc]
      cases hauth : c.isAuth with
      | false => simp [hauth]
      | true =>
        cases huid : c.getUserId with
        | none => simp [hauth, huid]
        | some uid => simp [hauth, huid, hrec]
  · intro m socketId toId c rc uid hc hauth huid hrec
    rw [handleTypingStart, hc, handleTypingStop, hc]
    simp [hauth, huid, hrec]

/-- Witness for C4: an unauthenticated session "X" produces no events; an
authenticated "alice" typing to online "bob" produces exactly one typing
event to "bob". -/
theorem typing_handlers_spec_witness :
    (handleTypingStart ⟨[("X", { socketId := "X" })], []⟩ "X" "bob" = [] ∧
      handleTypingStop ⟨[("X", { socketId := "X" })], []⟩ "X" "bob" = []) ∧
    (handleTypingStart
        ⟨[("A", ⟨"A", some ⟨"alice", "A", 0, none⟩, true⟩),
          ("B", ⟨"B", some ⟨"bob", "B", 0, none⟩, true⟩)],
         [("alice", "A"), ("bob", "B")]⟩ "A" "bob" =
      [.typingStart "B" "alice"]) := by
  constructor
  · exact typing_handlers_spec.1 ⟨[("X", { socketId := "X" })], []⟩ "X" "bob"
      (fun c hc => by
        have : c = { socketId := "X" } := by
          rw [show Server.ConnectionManager.getConnection
              ⟨[("X", { socketId := "X" })], []⟩ "X" =
            some { socketId := "X" } from rfl] at hc
          exact (Option.some.inj hc).symm
        rw [this]; rfl)
  · exact (typing_handlers_spec.2.2
      ⟨[("A", ⟨"A", some ⟨"alice", "A", 0, none⟩, true⟩),
        ("B", ⟨"B", some ⟨"bob", "B", 0, none⟩, true⟩)],
       [("alice", "A"), ("bob", "B")]⟩ "A" "bob"
      ⟨"A", some ⟨"alice", "A", 0, none⟩, true⟩
      ⟨"B", some ⟨"bob", "B", 0, none⟩, true⟩ "alice"
      (by decide) rfl (by decide) (by decide)).1

/-- C6: on a `null` validator result the authentication handler emits the
invalid-token auth_error and disconnects without touching the registry; on a
thrown validator error it emits the generic auth_error and disconnects
without touching the registry; on a returned user it stamps the socket id
and connection time onto the user, authenticates it in the registry
(installing the `userId → socketId` mapping), and emits the auth-success
event carrying the user id and the socket id, without disconnecting. -/
theorem handleAuthenticate_spec :
    (∀ (m : Server.ConnectionManager) (socketId : String) (now : Nat),
      handleAuthenticate m socketId AuthResult.nullUser now =
        (m, [.authError socketId "Invalid authentication token"], true)) ∧
    (∀ (m : Server.ConnectionManager) (socketId : String) (now : Nat),
      handleAuthenticate m socketId AuthResult.thrown now =
        (m, [.authError socketId "Authentication failed"], true)) ∧
    (∀ (m : Server.ConnectionManager) (socketId : String) (now : Nat) (u : User)
      (c : Server.Connection),
      m.getConnection socketId = some c →
      (handleAuthenticate m socketId (AuthResult.ok u) now).1.getConnection socketId =
        some (c.authenticate { u with socketId := socketId, connectedAt := now }) ∧
      (handleAuthenticate m socketId (AuthResult.ok u) now).1.userSockets.lookup u.id =
        some socketId ∧
      (handleAuthenticate m socketId (AuthResult.ok u) now).2 =
        ([.authenticated socketId u.id socketId], false)) := by
  refine ⟨fun _ _ _ => rfl, fun _ _ _ => rfl, ?_⟩
  intro m socketId now u c hc
  rw [Server.ConnectionManager.getConnection] at hc
  refine ⟨?_, ?_, rfl⟩
  · rw [handleAuthenticate]
    simp [Server.ConnectionManager.getConnection,
      Server.ConnectionManager.authenticateConnection, hc, SMap.lookup_set]
  · rw [handleAuthenticate]
    simp [Server.ConnectionManager.authenticateConnection, hc, SMap.lookup_set]

/-- Witness for C6 at a registry holding one fresh session "A". -/
theorem handleAuthenticate_spec_witness :
    (Server.ConnectionManager.getConnection ⟨[("A", { socketId := "A" })], []⟩ "A" =
      some { socketId := "A" }) ∧
    (handleAuthenticate ⟨[("A", { socketId := "A" })], []⟩ "A"
        (AuthResult.ok ⟨"alice", "zz", 7, none⟩) 99).1.userSockets.lookup "alice" =
      some "A" := by
  refine ⟨by decide, ?_⟩
  exact (handleAuthenticate_spec.2.2 ⟨[("A", { socketId := "A" })], []⟩ "A" 99
    ⟨"alice", "zz", 7, none⟩ { socketId := "A" } (by decide)).2.1

theorem setState_reconnectAttempts (c : Client.ConnectionManager) (s : ConnectionState) :
    (c.setState s).reconnectAttempts = c.reconnectAttempts := by
  rw [Client.ConnectionManager.setState]
  split <;> rfl

theorem setState_maxReconnectAttempts (c : Client.ConnectionManager) (s : ConnectionState) :
    (c.setState s).maxReconnectAttempts = c.maxReconnectAttempts := by
  rw [Client.ConnectionManager.setState]
  split <;> rfl

theorem scheduleReconnect_attempts (s : SocketClientState) :
    (scheduleReconnect s).cm.reconnectAttempts = s.cm.reconnectAttempts + 1 := by
  simp [scheduleReconnect, Client.ConnectionManager.incrementReconnectAttempts,
    setState_reconnectAttempts]

theorem scheduleReconnect_max (s : SocketClientState) :
    (scheduleReconnect s).cm.maxReconnectAttempts = s.cm.maxReconnectAttempts := by
  simp [scheduleReconnect, Client.ConnectionManager.incrementReconnectAttempts,
    setState_maxReconnectAttempts]

/-- At or past the attempt cap, a non-`connect` transport event leaves the
client at or past the cap, and can only have scheduled a timer if it was a
`connect_error`. -/
theorem handleEvent_capped (s : SocketClientState) (e : TransportEvent)
    (hcap : s.cm.maxReconnectAttempts ≤ s.cm.reconnectAttempts)
    (hne : e ≠ TransportEvent.connect) :
    (handleEvent s e).1.cm.maxReconnectAttempts ≤
      (handleEvent s e).1.cm.reconnectAttempts ∧
    ((handleEvent s e).2 = true → e = TransportEvent.connectError) := by
  cases e with
  | connect => exact absurd rfl hne
  | disconnect reason =>
    have hlt : ¬ (s.cm.reconnectAttempts < s.cm.maxReconnectAttempts) :=
      Nat.not_lt.mpr hcap
    simp [handleEvent, shouldReconnect, Client.ConnectionManager.canReconnect,
      setState_reconnectAttempts, setState_maxReconnectAttempts, hlt, hcap]
  | connectError =>
    cases hr : s.reconnection with
    | false =>
      simp [handleEvent, hr, setState_reconnectAttempts, setState_maxReconnectAttempts,
        hcap]
    | true =>
      refine ⟨?_, fun _ => rfl⟩
      simp only [handleEvent, hr, if_true, scheduleReconnect_attempts,
        scheduleReconnect_max, setState_reconnectAttempts, setState_maxReconnectAttempts]
      exact Nat.le_succ_of_le hcap

theorem runEvents_capped_aux :
    ∀ (events : List TransportEvent) (s : SocketClientState),
      s.cm.maxReconnectAttempts ≤ s.cm.reconnectAttempts →
      (∀ e ∈ events, e ≠ TransportEvent.connect) →
      ∀ p ∈ events.zip (runEvents s events).2,
        p.2 = true → p.1 = TransportEvent.connectError := by
  intro events
  induction events with
  | nil => intro s _ _ p hp; simp [runEvents] at hp
  | cons e rest ih =>
    intro s hcap hne p hp htrue
    simp only [runEvents, List.zip_cons_cons, List.mem_cons] at hp
    rcases hp with hp | hp
    · subst hp
      exact (handleEvent_capped s e hcap (hne e (List.mem_cons_self e rest))).2 htrue
    · exact ih (handleEvent s e).1
        (handleEvent_capped s e hcap (hne e (List.mem_cons_self e rest))).1
        (fun e' he' => hne e' (List.mem_cons_of_mem e he')) p hp htrue

/-- Counterexample to C1: with the reconnect counter already at the
configured maximum (5 of 5), a single `connect_error` event still schedules
a reconnect timer (armed with delay 6000 = 1000 × 6), pushing the counter
past the cap — the `connect_error` path never consults the cap. -/
theorem connectError_schedules_past_cap :
    runEvents ⟨⟨ConnectionState.disconnected, 5, 5⟩, true, 1000, none⟩
        [TransportEvent.connectError] =
      (⟨⟨ConnectionState.reconnecting, 6, 5⟩, true, 1000, some 6000⟩, [true]) := by
  decide

/-- C1 as amended: over any sequence of non-client-initiated disconnects and
connection errors starting at or past the attempt cap, every event that does
schedule a reconnect timer is a `connect_error` — the disconnect path never
schedules past the cap — while the `connect_error` path schedules whenever
reconnection is enabled, regardless of the counter. -/
theorem reconnect_cap_amended :
    (∀ (s : SocketClientState) (events : List TransportEvent),
      s.cm.maxReconnectAttempts ≤ s.cm.reconnectAttempts →
      (∀ e ∈ events, e ≠ TransportEvent.connect) →
      ∀ p ∈ events.zip (runEvents s events).2,
        p.2 = true → p.1 = TransportEvent.connectError) ∧
    (∀ s : SocketClientState, s.reconnection = true →
      (handleEvent s TransportEvent.connectError).2 = true) := by
  refine ⟨fun s events hcap hne => runEvents_capped_aux events s hcap hne, ?_⟩
  intro s hr
  simp [handleEvent, hr]

/-- Witness for C1 (amended) at the cap: a disconnect followed by a
connect_error; only the connect_error schedules. -/
theorem reconnect_cap_amended_witness :
    (⟨⟨ConnectionState.disconnected, 5, 5⟩, true, 1000, none⟩ :
        SocketClientState).cm.maxReconnectAttempts ≤
      (⟨⟨ConnectionState.disconnected, 5, 5⟩, true, 1000, none⟩ :
        SocketClientState).cm.reconnectAttempts ∧
    (handleEvent ⟨⟨ConnectionState.disconnected, 5, 5⟩, true, 1000, none⟩
        TransportEvent.connectError).2 = true ∧
    (TransportEvent.connectError, true).1 = TransportEvent.connectError := by
  refine ⟨by decide, reconnect_cap_amended.2
    ⟨⟨ConnectionState.disconnected, 5, 5⟩, true, 1000, none⟩ rfl, ?_⟩
  exact reconnect_cap_amended.1
    ⟨⟨ConnectionState.disconnected, 5, 5⟩, true, 1000, none⟩
    [TransportEvent.disconnect "transport close", TransportEvent.connectError]
    (by decide) (by decide) (TransportEvent.connectError, true) (by decide) rfl

/-- One guarded registry operation preserves R1 together with the
no-empty-id auxiliary invariant. -/
theorem R1_step (m : Server.ConnectionManager) (op : RegOp)
    (h1 : R1 m) (h2 : NoEmptyId m) (hok : opOK m op) :
    R1 (applyOp m op) ∧ NoEmptyId (applyOp m op) := by
  cases op with
  | add sid =>
    have hfresh : SMap.lookup sid m.connections = none := hok
    refine ⟨?_, ?_⟩
    · intro uid sid' hus
      obtain ⟨c, u, hc, hu, hid⟩ := h1 uid sid' hus
      have hne : sid ≠ sid' := by
        intro hss
        rw [hss] at hfresh
        rw [hfresh] at hc
        cases hc
      refine ⟨c, u, ?_, hu, hid⟩
      show SMap.lookup sid' (SMap.set sid ⟨sid, none, false⟩ m.connections) = some c
      rw [SMap.lookup_set, if_neg hne]
      exact hc
    · intro sid' c u hc hu
      have hc' : SMap.lookup sid' (SMap.set sid ⟨sid, none, false⟩ m.connections) =
          some c := hc
      rw [SMap.lookup_set] at hc'
      by_cases hss : sid = sid'
      · rw [if_pos hss] at hc'
        obtain rfl : c = ⟨sid, none, false⟩ := (Option.some.inj hc').symm
        simp at hu
      · rw [if_neg hss] at hc'
        exact h2 sid' c u hc' hu
  | auth sid u =>
    obtain ⟨hu0, hguard⟩ := hok
    cases heq : SMap.lookup sid m.connections with
    | none =>
      have hsame : applyOp m (RegOp.auth sid u) = m := by
        simp only [applyOp, Server.ConnectionManager.authenticateConnection, heq]
      rw [hsame]
      exact ⟨h1, h2⟩
    | some c0 =>
      have hguard' : ∀ u', c0.user = some u' → u'.id = u.id := by
        intro u' hu'
        simp only [heq, hu'] at hguard
        exact hguard
      have hstate : applyOp m (RegOp.auth sid u) =
          ⟨SMap.set sid (c0.authenticate u) m.connections,
            SMap.set u.id sid m.userSockets⟩ := by
        simp only [applyOp, Server.ConnectionManager.authenticateConnection, heq]
      rw [hstate]
      refine ⟨?_, ?_⟩
      · intro uid sid' hus
        have hus' : SMap.lookup uid (SMap.set u.id sid m.userSockets) = some sid' := hus
        rw [SMap.lookup_set] at hus'
        by_cases huid : u.id = uid
        · rw [if_pos huid] at hus'
          obtain rfl : sid = sid' := Option.some.inj hus'
          refine ⟨c0.authenticate u, u, ?_, rfl, huid⟩
          show SMap.lookup sid (SMap.set sid (c0.authenticate u) m.connections) = some _
          rw [SMap.lookup_set, if_pos rfl]
        · rw [if_neg huid] at hus'
          obtain ⟨c', u', hc', hu', hid'⟩ := h1 uid sid' hus'
          by_cases hss : sid = sid'
          · subst hss
            rw [heq] at hc'
            obtain rfl : c0 = c' := Option.some.inj hc'
            exact absurd ((hguard' u' hu').symm.trans hid') huid
          · refine ⟨c', u', ?_, hu', hid'⟩
            show SMap.lookup sid' (SMap.set sid (c0.authenticate u) m.connections) =
              some c'
            rw [SMap.lookup_set, if_neg hss]
            exact hc'
      · intro sid' c u' hc hu'
        have hc' : SMap.lookup sid' (SMap.set sid (c0.authenticate u) m.connections) =
            some c := hc
        rw [SMap.lookup_set] at hc'
        by_cases hss : sid = sid'
        · rw [if_pos hss] at hc'
          obtain rfl : c = c0.authenticate u := (Option.some.inj hc').symm
          have huu : u = u' := Option.some.inj hu'
          rw [← huu]
          exact hu0
        · rw [if_neg hss] at hc'
          exact h2 sid' c u' hc' hu'
  | remove sid =>
    cases heq : SMap.lookup sid m.connections with
    | none =>
      have hsame : applyOp m (RegOp.remove sid) = m := by
        simp only [applyOp, Server.ConnectionManager.removeConnection, heq]
      rw [hsame]
      exact ⟨h1, h2⟩
    | some c0 =>
      cases hguid : c0.getUserId with
      | none =>
        have hcu : c0.user = none := by
          cases hcu0 : c0.user with
          | none => rfl
          | some u0 =>
            have hne := h2 sid c0 u0 heq hcu0
            rw [Server.Connection.getUserId] at hguid
            simp only [hcu0] at hguid
            rw [if_neg hne] at hguid
            cases hguid
        have hstate : applyOp m (RegOp.remove sid) =
            ⟨SMap.erase sid m.connections, m.userSockets⟩ := by
          simp only [applyOp, Server.ConnectionManager.removeConnection, heq, hguid]
        rw [hstate]
        refine ⟨?_, ?_⟩
        · intro uid sid' hus
          obtain ⟨c', u', hc', hu', hid'⟩ := h1 uid sid' hus
          by_cases hss : sid = sid'
          · subst hss
            rw [heq] at hc'
            obtain rfl : c0 = c' := Option.some.inj hc'
            rw [hcu] at hu'
            cases hu'
          · refine ⟨c', u', ?_, hu', hid'⟩
            show SMap.lookup sid' (SMap.erase sid m.connections) = some c'
            rw [SMap.lookup_erase, if_neg hss]
            exact hc'
        · intro sid' c u' hc hu'
          have hc' : SMap.lookup sid' (SMap.erase sid m.connections) = some c := hc
          rw [SMap.lookup_erase] at hc'
          by_cases hss : sid = sid'
          · rw [if_pos hss] at hc'
            cases hc'
          · rw [if_neg hss] at hc'
            exact h2 sid' c u' hc' hu'
      | some uid0 =>
        have hcu : ∃ u0, c0.user = some u0 ∧ u0.id = uid0 := by
          rw [Server.Connection.getUserId] at hguid
          cases hcu0 : c0.user with
          | none =>
            simp only [hcu0] at hguid
            cases hguid
          | some u0 =>
            simp only [hcu0] at hguid
            by_cases hid0 : u0.id = ""
            · rw [if_pos hid0] at hguid
              cases hguid
            · rw [if_neg hid0] at hguid
              exact ⟨u0, rfl, Option.some.inj hguid⟩
        obtain ⟨u0, hcu0, hid0⟩ := hcu
        have hstate : applyOp m (RegOp.remove sid) =
            ⟨SMap.erase sid m.connections, SMap.erase uid0 m.userSockets⟩ := by
          simp only [applyOp, Server.ConnectionManager.removeConnection, heq, hguid]
        rw [hstate]
        refine ⟨?_, ?_⟩
        · intro uid sid' hus
          have hus' : SMap.lookup uid (SMap.erase uid0 m.userSockets) = some sid' := hus
          rw [SMap.lookup_erase] at hus'
          by_cases huu : uid0 = uid
          · rw [if_pos huu] at hus'
            cases hus'
          · rw [if_neg huu] at hus'
            obtain ⟨c', u', hc', hu', hid'⟩ := h1 uid sid' hus'
            by_cases hss : sid = sid'
            · subst hss
              rw [heq] at hc'
              obtain rfl : c0 = c' := Option.some.inj hc'
              rw [hcu0] at hu'
              obtain rfl : u0 = u' := Option.some.inj hu'
              exact absurd (hid0.symm.trans hid') huu
            · refine ⟨c', u', ?_, hu', hid'⟩
              show SMap.lookup sid' (SMap.erase sid m.connections) = some c'
              rw [SMap.lookup_erase, if_neg hss]
              exact hc'
        · intro sid' c u' hc hu'
          have hc' : SMap.lookup sid' (SMap.erase sid m.connections) = some c := hc
          rw [SMap.lookup_erase] at hc'
          by_cases hss : sid = sid'
          · rw [if_pos hss] at hc'
            cases hc'
          · rw [if_neg hss] at hc'
            exact h2 sid' c u' hc' hu'

/-- Guarded operation sequences preserve R1 and the no-empty-id invariant. -/
theorem R1_run :
    ∀ (ops : List RegOp) (m : Server.ConnectionManager),
      R1 m → NoEmptyId m → OkSeq m ops →
      R1 (applyOps m ops) ∧ NoEmptyId (applyOps m ops)
  | [], _, h1, h2, _ => ⟨h1, h2⟩
  | op :: rest, m, h1, h2, hseq => by
    obtain ⟨hok, hrest⟩ := hseq
    have hstep := R1_step m op h1 h2 hok
    exact R1_run rest (applyOp m op) hstep.1 hstep.2 hrest

/-- Counterexample to C2: R1 is not preserved by every operation sequence.
Re-authenticating session "A" under a different user id leaves the stale
entry `u1 → "A"` pointing at a session now authenticated as `u2`; and
removing a session authenticated under the empty user id (whose
`getUserId()` coerces to `null`) leaves its user-map entry dangling. -/
theorem R1_violated_by_cross_reauth :
    ¬ R1 (applyOps Server.ConnectionManager.empty
        [RegOp.add "A", RegOp.auth "A" ⟨"u1", "", 0, none⟩,
         RegOp.auth "A" ⟨"u2", "", 0, none⟩]) ∧
    ¬ R1 (applyOps Server.ConnectionManager.empty
        [RegOp.add "B", RegOp.auth "B" ⟨"", "", 0, none⟩, RegOp.remove "B"]) := by
  constructor
  · intro h
    obtain ⟨c, u, hc, hu, hid⟩ := h "u1" "A" rfl
    have hc2 : some (⟨"A", some ⟨"u2", "", 0, none⟩, true⟩ : Server.Connection) =
        some c := by
      rw [← hc]
      rfl
    obtain rfl : c = ⟨"A", some ⟨"u2", "", 0, none⟩, true⟩ := (Option.some.inj hc2).symm
    simp only [Option.some.injEq] at hu
    rw [← hu] at hid
    simp at hid
  · intro h
    obtain ⟨c, u, hc, hu, hid⟩ := h "" "B" rfl
    have : (none : Option Server.Connection) = some c := by
      rw [← hc]
      rfl
    cases this

/-- C2 as amended: R1 holds in every state reached from the empty registry
by a sequence of operations in which each `addConnection` uses a fresh
session id and each `authenticateConnection` uses a non-empty user id and
never re-authenticates an already-authenticated session under a different
user id. -/
theorem R1_preserved_guarded :
    ∀ ops : List RegOp, OkSeq Server.ConnectionManager.empty ops →
      R1 (applyOps Server.ConnectionManager.empty ops) := by
  intro ops hseq
  have base1 : R1 Server.ConnectionManager.empty := by
    intro uid sid h
    cases h
  have base2 : NoEmptyId Server.ConnectionManager.empty := by
    intro sid c u h _
    cases h
  exact (R1_run ops Server.ConnectionManager.empty base1 base2 hseq).1

/-- Witness for C2 (amended): a guarded sequence exercising fresh adds, the
R3 last-authentication-wins displacement, and a removal. -/
theorem R1_preserved_guarded_witness :
    OkSeq Server.ConnectionManager.empty
      [RegOp.add "A", RegOp.auth "A" ⟨"alice", "", 0, none⟩, RegOp.add "B",
       RegOp.auth "B" ⟨"alice", "", 0, none⟩, RegOp.remove "A"] ∧
    R1 (applyOps Server.ConnectionManager.empty
      [RegOp.add "A", RegOp.auth "A" ⟨"alice", "", 0, none⟩, RegOp.add "B",
       RegOp.auth "B" ⟨"alice", "", 0, none⟩, RegOp.remove "A"]) := by
  have hseq : OkSeq Server.ConnectionManager.empty
      [RegOp.add "A", RegOp.auth "A" ⟨"alice", "", 0, none⟩, RegOp.add "B",
       RegOp.auth "B" ⟨"alice", "", 0, none⟩, RegOp.remove "A"] :=
    ⟨rfl, ⟨by decide, trivial⟩, rfl, ⟨by decide, trivial⟩, trivial, trivial⟩
  exact ⟨hseq, R1_preserved_guarded _ hseq⟩

/-- Every registry operation — without any side condition — preserves the
invariant that an authenticated connection stores a user. -/
theorem authImpliesUser_step (m : Server.ConnectionManager) (op : RegOp)
    (h : AuthImpliesUser m) : AuthImpliesUser (applyOp m op) := by
  cases op with
  | add sid =>
    intro sid' c hc hauth
    have hc' : SMap.lookup sid' (SMap.set sid ⟨sid, none, false⟩ m.connections) =
        some c := hc
    rw [SMap.lookup_set] at hc'
    by_cases hss : sid = sid'
    · rw [if_pos hss] at hc'
      obtain rfl : c = ⟨sid, none, false⟩ := (Option.some.inj hc').symm
      cases hauth
    · rw [if_neg hss] at hc'
      exact h sid' c hc' hauth
  | auth sid u =>
    cases heq : SMap.lookup sid m.connections with
    | none =>
      have hsame : applyOp m (RegOp.auth sid u) = m := by
        simp only [applyOp, Server.ConnectionManager.authenticateConnection, heq]
      rw [hsame]
      exact h
    | some c0 =>
      have hstate : applyOp m (RegOp.auth sid u) =
          ⟨SMap.set sid (c0.authenticate u) m.connections,
            SMap.set u.id sid m.userSockets⟩ := by
        simp only [applyOp, Server.ConnectionManager.authenticateConnection, heq]
      rw [hstate]
      intro sid' c hc hauth
      have hc' : SMap.lookup sid' (SMap.set sid (c0.authenticate u) m.connections) =
          some c := hc
      rw [SMap.lookup_set] at hc'
      by_cases hss : sid = sid'
      · rw [if_pos hss] at hc'
        obtain rfl : c = c0.authenticate u := (Option.some.inj hc').symm
        exact ⟨u, rfl⟩
      · rw [if_neg hss] at hc'
        exact h sid' c hc' hauth
  | remove sid =>
    cases heq : SMap.lookup sid m.connections with
    | none =>
      have hsame : applyOp m (RegOp.remove sid) = m := by
        simp only [applyOp, Server.ConnectionManager.removeConnection, heq]
      rw [hsame]
      exact h
    | some c0 =>
      cases hguid : c0.getUserId with
      | none =>
        have hstate : applyOp m (RegOp.remove sid) =
            ⟨SMap.erase sid m.connections, m.userSockets⟩ := by
          simp only [applyOp, Server.ConnectionManager.removeConnection, heq, hguid]
        rw [hstate]
        intro sid' c hc hauth
        have hc' : SMap.lookup sid' (SMap.erase sid m.connections) = some c := hc
        rw [SMap.lookup_erase] at hc'
        by_cases hss : sid = sid'
        · rw [if_pos hss] at hc'
          cases hc'
        · rw [if_neg hss] at hc'
          exact h sid' c hc' hauth
      | some uid0 =>
        have hstate : applyOp m (RegOp.remove sid) =
            ⟨SMap.erase sid m.connections, SMap.erase uid0 m.userSockets⟩ := by
          simp only [applyOp, Server.ConnectionManager.removeConnection, heq, hguid]
        rw [hstate]
        intro sid' c hc hauth
        have hc' : SMap.lookup sid' (SMap.erase sid m.connections) = some c := hc
        rw [SMap.lookup_erase] at hc'
        by_cases hss : sid = sid'
        · rw [if_pos hss] at hc'
          cases hc'
        · rw [if_neg hss] at hc'
          exact h sid' c hc' hauth

theorem authImpliesUser_run :
    ∀ (ops : List RegOp) (m : Server.ConnectionManager),
      AuthImpliesUser m → AuthImpliesUser (applyOps m ops)
  | [], _, h => h
  | op :: rest, m, h =>
    authImpliesUser_run rest (applyOp m op) (authImpliesUser_step m op h)

/-- Counterexample to C10: a session authenticated (through the documented
operations only) with a user whose id is the empty string has `isAuth()`
true while `getUserId()` coerces to `null`, so the "Invalid user" branch of
the send-message handler is reachable. -/
theorem invalid_user_branch_reachable :
    (Server.ConnectionManager.getConnection
        (applyOps Server.ConnectionManager.empty
          [RegOp.add "A", RegOp.auth "A" ⟨"", "", 0, none⟩]) "A").map
        Server.Connection.isAuth = some true ∧
    (Server.ConnectionManager.getConnection
        (applyOps Server.ConnectionManager.empty
          [RegOp.add "A", RegOp.auth "A" ⟨"", "", 0, none⟩]) "A").map
        Server.Connection.getUserId = some none ∧
    handleSendMessage
        (applyOps Server.ConnectionManager.empty
          [RegOp.add "A", RegOp.auth "A" ⟨"", "", 0, none⟩]) "A"
        ⟨"bob", "hi", none⟩ "m1" 0 =
      [ServerEmit.messageError "A" none "Invalid user"] := by
  refine ⟨rfl, rfl, by decide⟩

/-- C10 as amended: in every registry state reachable from the empty
registry through the documented operations, an `isAuth()` connection always
stores a (non-null) user, and the "Invalid user" branch of the send-message
handler fires for such a sender exactly when that user's id is the empty
string (which `getUserId()` coerces to `null`). -/
theorem isAuth_user_invalid_branch :
    ∀ (ops : List RegOp) (socketId : String) (c : Server.Connection)
      (payload : SendMessagePayload) (messageId : String) (now : Nat),
      (applyOps Server.ConnectionManager.empty ops).getConnection socketId = some c →
      c.isAuth = true →
      ∃ u, c.user = some u ∧
        (handleSendMessage (applyOps Server.ConnectionManager.empty ops) socketId
            payload messageId now =
          [ServerEmit.messageError socketId none "Invalid user"] ↔ u.id = "") := by
  intro ops socketId c payload messageId now hc hauth
  have hbase : AuthImpliesUser Server.ConnectionManager.empty := by
    intro sid c' h _
    cases h
  obtain ⟨u, hu⟩ := authImpliesUser_run ops Server.ConnectionManager.empty hbase
    socketId c hc hauth
  refine ⟨u, hu, ?_⟩
  rw [handleSendMessage, hc]
  have hgu : c.getUserId = if u.id = "" then none else some u.id := by
    rw [Server.Connection.getUserId]
    simp only [hu]
  simp only [hauth, Bool.not_true, Bool.false_eq_true, if_false, hgu]
  by_cases hid : u.id = ""
  · rw [if_pos hid]
    simp [hid]
  · rw [if_neg hid]
    cases hrec : (applyOps Server.ConnectionManager.empty ops).getConnectionByUserId
        payload.toId with
    | none => simp [hrec, hid]
    | some rc => simp [hrec, hid]

/-- Witness for C10 (amended) at a session authenticated as "alice". -/
theorem isAuth_user_invalid_branch_witness :
    ((applyOps Server.ConnectionManager.empty
        [RegOp.add "A", RegOp.auth "A" ⟨"alice", "", 0, none⟩]).getConnection "A" =
      some ⟨"A", some ⟨"alice", "", 0, none⟩, true⟩) ∧
    (Server.Connection.isAuth ⟨"A", some ⟨"alice", "", 0, none⟩, true⟩ = true) ∧
    (∃ u, (⟨"A", some ⟨"alice", "", 0, none⟩, true⟩ : Server.Connection).user =
        some u ∧
      (handleSendMessage
          (applyOps Server.ConnectionManager.empty
            [RegOp.add "A", RegOp.auth "A" ⟨"alice", "", 0, none⟩]) "A"
          ⟨"bob", "hi", none⟩ "m1" 0 =
        [ServerEmit.messageError "A" none "Invalid user"] ↔ u.id = "")) := by
  refine ⟨by decide, rfl, ?_⟩
  exact isAuth_user_invalid_branch
    [RegOp.add "A", RegOp.auth "A" ⟨"alice", "", 0, none⟩] "A"
    ⟨"A", some ⟨"alice", "", 0, none⟩, true⟩ ⟨"bob", "hi", none⟩ "m1" 0
    (by decide) rfl

end Sockr
